import Mathlib

/-! Shallow embedding of the nanny time-tracker application
(`src/App.tsx`, `src/types.ts`, and the cloud-sync variant
`src/unnamed/part_001`).

Modelling conventions:
* Timestamps are milliseconds since the Unix epoch, as `Int` (the
  numeric value of a JS `Date`); the ISO-string round trip through
  `toISOString` / `new Date(...)` is the identity on this value.
* The local timezone is modelled as a fixed-offset zone (UTC), so
  `setDate` / `getDate` act on the civil calendar with the time of
  day preserved exactly.
* JS `Number` arithmetic on the quantities used by the app (integer
  minute counts, ms timestamps, rates) is modelled exactly over `ℚ`,
  and the geofence trigonometry over `ℝ`.
* `localStorage` is a partial map from string keys to stored values;
  `JSON.stringify`/`JSON.parse` round trips are the identity.
-/

open Real

/-- JS `Math.round` on a real argument: `⌊x + 0.5⌋`. -/
noncomputable def jsRound (x : ℝ) : ℤ := ⌊x + 1/2⌋

/-- JS `Math.round` on an exact rational argument: `⌊x + 0.5⌋`. -/
def jsRoundQ (q : ℚ) : ℤ := ⌊q + 1/2⌋

/-- JS `(x).toFixed(2)` followed by `parseFloat`: round to two decimal
places, ties away from zero towards the larger value (ECMA-262 picks the
larger candidate `n`). -/
def jsToFixed2 (q : ℚ) : ℚ := (⌊q * 100 + 1/2⌋ : ℚ) / 100

/-- JS `Math.atan2 y x` (principal value in `(-π, π]`; `atan2 0 0 = 0`). -/
noncomputable def jsAtan2 (y x : ℝ) : ℝ :=
  if 0 < x then Real.arctan (y / x)
  else if x < 0 then
    (if 0 ≤ y then Real.arctan (y / x) + π else Real.arctan (y / x) - π)
  else
    (if 0 < y then π / 2 else if y < 0 then -(π / 2) else 0)

/-- Model of `calculateDistance` from `src/App.tsx` (lines 57-65): haversine
great-circle distance in metres, Earth radius `6371e3`. -/
noncomputable def calculateDistance (lat1 lon1 lat2 lon2 : ℝ) : ℝ :=
  let R : ℝ := 6371000
  let phi1 := lat1 * π / 180
  let phi2 := lat2 * π / 180
  let dphi := (lat2 - lat1) * π / 180
  let dlam := (lon2 - lon1) * π / 180
  let a := Real.sin (dphi / 2) * Real.sin (dphi / 2) +
    Real.cos phi1 * Real.cos phi2 * (Real.sin (dlam / 2) * Real.sin (dlam / 2))
  R * (2 * jsAtan2 (Real.sqrt a) (Real.sqrt (1 - a)))

/-! Civil calendar, for JS `Date.setDate` / `Date.getDate`.

Straight port of the standard era-based civil-calendar algorithms
(as used by C++ `date` libraries); `Int.fdiv` is floor division,
which is what the C idiom `(x >= 0 ? x : x - (N-1)) / N` computes. -/

/-- Days since 1970-01-01 of the civil date `y-m-d`. -/
def daysFromCivil (y m d : Int) : Int :=
  let y1 := if m ≤ 2 then y - 1 else y
  let era := Int.fdiv y1 400
  let yoe := y1 - era * 400
  let mp := if 2 < m then m - 3 else m + 9
  let doy := Int.fdiv (153 * mp + 2) 5 + d - 1
  let doe := yoe * 365 + Int.fdiv yoe 4 - Int.fdiv yoe 100 + doy
  era * 146097 + doe - 719468

/-- Civil date `(y, m, d)` of the day `z` days after 1970-01-01. -/
def civilFromDays (z : Int) : Int × Int × Int :=
  let z1 := z + 719468
  let era := Int.fdiv z1 146097
  let doe := z1 - era * 146097
  let yoe := Int.fdiv (doe - Int.fdiv doe 1460 + Int.fdiv doe 36524 - Int.fdiv doe 146096) 365
  let y := yoe + era * 400
  let doy := doe - (365 * yoe + Int.fdiv yoe 4 - Int.fdiv yoe 100)
  let mp := Int.fdiv (5 * doy + 2) 153
  let d := doy - Int.fdiv (153 * mp + 2) 5 + 1
  let m := if mp < 10 then mp + 3 else mp - 9
  (if m ≤ 2 then y + 1 else y, m, d)

/-- Milliseconds in one day. -/
def msPerDay : Int := 86400000

/-- The epoch-day number a ms timestamp falls on (local = fixed-offset). -/
def jsDayOf (t : Int) : Int := Int.fdiv t msPerDay

/-- JS `d.getDate()`: day of month (1-31) of a ms timestamp. -/
def jsGetDate (t : Int) : Int := (civilFromDays (jsDayOf t)).2.2

/-- JS `d.setDate n`: replace the day-of-month by `n` (rolling over into
adjacent months), keeping the time of day. -/
def jsSetDate (t n : Int) : Int :=
  let z := jsDayOf t
  let msOfDay := t - msPerDay * z
  let c := civilFromDays z
  (daysFromCivil c.1 c.2.1 1 + (n - 1)) * msPerDay + msOfDay

/-! Data model (`src/types.ts`). -/

/-- A latitude/longitude pair in degrees. -/
structure Coord where
  lat : ℝ
  lng : ℝ

/-- Model of `TimeSession` from `src/types.ts`; `startTime`/`endTime` are the ms
values of the stored ISO timestamps. -/
structure Session where
  id : String
  startTime : Int
  endTime : Option Int
  durationInMinutes : Option Int
  note : Option String
  isOutOfBounds : Option Bool
  location : Option Coord

/-- Model of `HomeConfig` from `src/types.ts`. -/
structure HomeConfig where
  lat : ℝ
  lng : ℝ
  radiusMeters : ℝ

/-- Model of `ClockStatus` from `src/types.ts`. -/
inductive ClockStatus where
  | CLOCKED_OUT
  | CLOCKED_IN
  | IDLE
deriving DecidableEq

/-! Storage model. -/

/-- A value stored in `localStorage` (after the JSON round trip). -/
inductive StoreEntry where
  | sessList (l : List Session)
  | oneSession (s : Session)
  | config (h : HomeConfig)

/-- Model of `localStorage`: a map from string keys to entries. -/
def Store : Type := String → Option StoreEntry

/-- The empty storage (fresh browser profile). -/
def emptyStore : Store := fun _ => none

/-- Model of `localStorage.setItem`. -/
def storeSet (st : Store) (k : String) (v : StoreEntry) : Store :=
  fun k2 => if k2 = k then some v else st k2

/-- Model of `localStorage.removeItem`. -/
def storeRemove (st : Store) (k : String) : Store :=
  fun k2 => if k2 = k then none else st k2

/-- The React component state shared by both variants of the app:
session list, single active-session slot, status, error banner, and
the backing `localStorage`. -/
structure AppState where
  sessions : List Session
  activeSession : Option Session
  status : ClockStatus
  error : Option String
  store : Store

/-- A UI event driving the clock controller: a clock-in attempt (with
the wall-clock time, the geolocation result, and the fresh UUID) or a
clock-out. -/
inductive Ev where
  | evClockIn (now : Int) (loc : Option Coord) (id : String)
  | evClockOut (now : Int)

/-! Clock controller, main variant (`src/App.tsx`).

State updates are modelled together with the persistence `useEffect`s
of lines 44-55: the `[sessions, homeConfig]` effect and the
`[activeSession]` effect re-run exactly when those states change
(and once on mount), so each operation below writes exactly the keys
the real component writes. -/

namespace AppM

/-- The `[sessions, homeConfig]` persistence effect (lines 44-47). -/
def persistSessions (cfg : HomeConfig) (sessions : List Session) (st : Store) : Store :=
  storeSet (storeSet st ("nanny_sessions") (.sessList sessions)) "home_config" (.config cfg)

/-- The `[activeSession]` persistence effect (lines 49-55). -/
def persistActive (active : Option Session) (st : Store) : Store :=
  match active with
  | some a => storeSet st ("nanny_active_session") (.oneSession a)
  | none => storeRemove st ("nanny_active_session")

/-- What the load effect (lines 34-42) reads for `nanny_sessions`. -/
def loadSessions (st : Store) : Option (List Session) :=
  match st ("nanny_sessions") with
  | some (.sessList l) => some l
  | _ => none

/-- What the load effect reads for `nanny_active_session`. -/
def loadActive (st : Store) : Option Session :=
  match st ("nanny_active_session") with
  | some (.oneSession a) => some a
  | _ => none

/-- Component mount: initial state, the load effect (lines 34-42), then
the two persistence effects running once. -/
def initFromStore (cfg : HomeConfig) (st0 : Store) : AppState :=
  let sessions := (loadSessions st0).getD []
  let active := loadActive st0
  let status := if active.isSome then ClockStatus.CLOCKED_IN else ClockStatus.CLOCKED_OUT
  { sessions := sessions, activeSession := active, status := status, error := none
    store := persistActive active (persistSessions cfg sessions st0) }

/-- Model of `handleClockIn` (lines 67-93). `loc` is the geolocation outcome
(`none` = denied / timed out), `newId` the fresh `crypto.randomUUID()`. -/
noncomputable def handleClockIn (cfg : HomeConfig) (now : Int) (loc : Option Coord)
    (newId : String) (st : AppState) : AppState :=
  match loc with
  | none => { st with error := some ("Please enable location services to clock in.") }
  | some u =>
    if cfg.lat ≠ 0 then
      let dist := calculateDistance u.lat u.lng cfg.lat cfg.lng
      if dist > cfg.radiusMeters then
        { st with error := some ("Location mismatch: You are (" ++ toString (jsRound dist)
            ++ ")m away from home.") }
      else
        { st with
          error := none
          activeSession := some ⟨newId, now, none, none, none, some false, some u⟩
          status := ClockStatus.CLOCKED_IN
          store := persistActive (some ⟨newId, now, none, none, none, some false, some u⟩) st.store }
    else
      { st with
        error := none
        activeSession := some ⟨newId, now, none, none, none, some false, some u⟩
        status := ClockStatus.CLOCKED_IN
        store := persistActive (some ⟨newId, now, none, none, none, some false, some u⟩) st.store }

/-- Model of `handleClockOut` (lines 95-103). -/
def handleClockOut (cfg : HomeConfig) (now : Int) (st : AppState) : AppState :=
  match st.activeSession with
  | none => st
  | some a =>
    let durationMins := jsRoundQ (((now - a.startTime : Int) : ℚ) / 60000)
    let completed : Session :=
      { a with endTime := some now, durationInMinutes := some durationMins }
    { st with
      sessions := completed :: st.sessions
      activeSession := none
      status := ClockStatus.CLOCKED_OUT
      store := persistActive none (persistSessions cfg (completed :: st.sessions) st.store) }

/-- One UI event. -/
noncomputable def step (cfg : HomeConfig) (st : AppState) (e : Ev) : AppState :=
  match e with
  | .evClockIn now loc id => handleClockIn cfg now loc id st
  | .evClockOut now => handleClockOut cfg now st

/-- A whole interaction history. -/
noncomputable def run (cfg : HomeConfig) (st : AppState) (evs : List Ev) : AppState :=
  evs.foldl (step cfg) st

end AppM

/-! Clock controller, cloud-sync variant (`src/unnamed/part_001`).

This variant partitions storage by a sync key; `handleClockIn` has no
geofence check, and `saveToCloud` (lines 39-55) is called explicitly
from the two handlers (there are no persistence effects). -/

namespace SyncM

/-- Model of `saveToCloud` (lines 39-55): writes the session list and sets or
clears the active slot, under keys derived from the sync key. -/
def saveToCloud (key : String) (data : List Session) (active : Option Session)
    (st : Store) : Store :=
  let st1 := storeSet st ("nanny_sessions_" ++ key) (.sessList data)
  match active with
  | some a => storeSet st1 ("nanny_active_" ++ key) (.oneSession a)
  | none => storeRemove st1 ("nanny_active_" ++ key)

/-- What the load effect (lines 57-65) reads for the session list. -/
def loadSessions (key : String) (st : Store) : Option (List Session) :=
  match st ("nanny_sessions_" ++ key) with
  | some (.sessList l) => some l
  | _ => none

/-- What the load effect reads for the active session. -/
def loadActive (key : String) (st : Store) : Option Session :=
  match st ("nanny_active_" ++ key) with
  | some (.oneSession a) => some a
  | _ => none

/-- Component mount: initial state then the load effect (lines 57-65);
this variant persists nothing on mount. -/
def initFromStore (key : String) (st0 : Store) : AppState :=
  let sessions := (loadSessions key st0).getD []
  let active := loadActive key st0
  let status := if active.isSome then ClockStatus.CLOCKED_IN else ClockStatus.CLOCKED_OUT
  { sessions := sessions, activeSession := active, status := status, error := none
    store := st0 }

/-- Model of `handleClockIn` (lines 67-86): no geofence; on success it calls
`saveToCloud [newSess, ...sessions] newSess`. -/
def handleClockIn (key : String) (now : Int) (loc : Option Coord)
    (newId : String) (st : AppState) : AppState :=
  match loc with
  | none => { st with error := some ("Location is required to clock in.") }
  | some u =>
    let newSess : Session := ⟨newId, now, none, none, none, some false, some u⟩
    { st with
      error := none
      activeSession := some newSess
      status := ClockStatus.CLOCKED_IN
      store := saveToCloud key (newSess :: st.sessions) (some newSess) st.store }

/-- Model of `handleClockOut` (lines 88-98). -/
def handleClockOut (key : String) (now : Int) (st : AppState) : AppState :=
  match st.activeSession with
  | none => st
  | some a =>
    let durationMins := jsRoundQ (((now - a.startTime : Int) : ℚ) / 60000)
    let completed : Session :=
      { a with endTime := some now, durationInMinutes := some durationMins }
    { st with
      sessions := completed :: st.sessions
      activeSession := none
      status := ClockStatus.CLOCKED_OUT
      store := saveToCloud key (completed :: st.sessions) none st.store }

/-- One UI event. -/
def step (key : String) (st : AppState) (e : Ev) : AppState :=
  match e with
  | .evClockIn now loc id => handleClockIn key now loc id st
  | .evClockOut now => handleClockOut key now st

/-- A whole interaction history. -/
def run (key : String) (st : AppState) (evs : List Ev) : AppState :=
  evs.foldl (step key) st

end SyncM

/-! Period filter and aggregation (identical in both variants;
`src/App.tsx` lines 105-120, `src/unnamed/part_001` lines 100-114) -/

/-- Model of `filteredSessions` (lines 105-117): `startOfPeriod` and
`endOfPeriod` both start from `new Date()` (= `now`) and are adjusted
with `setDate`; a session passes when `startOfPeriod ≤ startTime ≤
endOfPeriod`. -/
def filteredSessions (sessions : List Session) (periodOffset : Int) (now : Int) :
    List Session :=
  let startOfPeriod := jsSetDate now (jsGetDate now - 14 * (periodOffset + 1))
  let endOfPeriod := jsSetDate now (jsGetDate startOfPeriod + 14)
  sessions.filter fun s =>
    decide (startOfPeriod ≤ s.startTime) && decide (s.startTime ≤ endOfPeriod)

/-- Model of `totalHours` (line 119): `reduce` of `durationInMinutes || 0`,
divided by 60, then `toFixed(2)` (model: the numeric value shown). -/
def totalHours (l : List Session) : ℚ :=
  jsToFixed2 (((l.foldl (fun acc s => acc + s.durationInMinutes.getD 0) 0 : Int) : ℚ) / 60)

/-- Model of `totalPay` (line 120): `parseFloat(totalHours) * hourlyRate`,
then `toFixed(2)`. -/
def totalPay (l : List Session) (hourlyRate : ℚ) : ℚ :=
  jsToFixed2 (totalHours l * hourlyRate)

/-! Concrete inputs used by witnesses and counterexamples. -/

/-- A fresh just-mounted state over empty storage (both variants agree
on this shape; fields spelled out for easy kernel reduction). -/
def idleState : AppState :=
  { sessions := [], activeSession := none, status := ClockStatus.CLOCKED_OUT
    error := none, store := emptyStore }

/-- A completed session with a given duration (for the aggregation
example of the spec). -/
def doneSession (nm : String) (d : Int) : Session :=
  ⟨nm, 0, some (d * 60000), some d, none, none, none⟩

/-- The aggregation example of the spec: durations 60, 90 and 30 minutes. -/
def exampleSessions : List Session :=
  [doneSession ("a") 60, doneSession ("b") 90, doneSession ("c") 30]

/-- Noon (UTC) on 2024-03-10, in ms — the evaluation instant of the
period-filter failing input. -/
def bugNow : Int := daysFromCivil 2024 3 10 * msPerDay + 43200000

/-- A completed session started at noon on 2024-03-20 — ten days AFTER
`bugNow`, hence outside every 14-day window ending at `bugNow`. -/
def bugSession : Session :=
  ⟨"s1", daysFromCivil 2024 3 20 * msPerDay + 43200000,
    some (daysFromCivil 2024 3 20 * msPerDay + 72000000), some 480, none, none, none⟩

/-- A session is completed: `endTime` and `durationInMinutes` both present. -/
def completedB (s : Session) : Bool := s.endTime.isSome && s.durationInMinutes.isSome

/-- The session list the sync variant keeps in its persisted store: the
in-memory list, preceded by the active session while one is running. -/
def SyncM.storedView (st : AppState) : List Session :=
  match st.activeSession with
  | some a => a :: st.sessions
  | none => st.sessions

/-- Store/state correspondence of the main variant: the in-memory list
holds only completed sessions, and the persisted list and active slot
mirror the in-memory ones exactly. -/
def AppStoreInv (st : AppState) : Prop :=
  st.sessions.all completedB = true ∧
  AppM.loadSessions st.store = some st.sessions ∧
  AppM.loadActive st.store = st.activeSession

/-- Store/state correspondence of the sync variant: the in-memory list
holds only completed sessions, the persisted list is the in-memory list
with the active session (if any) prepended, and the persisted active
slot mirrors the in-memory one. -/
def SyncStoreInv (key : String) (st : AppState) : Prop :=
  st.sessions.all completedB = true ∧
  (SyncM.loadSessions key st.store).getD [] = SyncM.storedView st ∧
  SyncM.loadActive key st.store = st.activeSession

/-! # Theorems -/

/-! Helper lemmas about `calculateDistance`. -/

/-- The haversine distance from a point to itself is zero. -/
theorem calculateDistance_self (la lo : ℝ) : calculateDistance la lo la lo = 0 := by
  simp [calculateDistance, jsAtan2]

/-- The haversine distance between latitude 45 and latitude 0 on the
same meridian comes out as `R·π/4`. -/
theorem calculateDistance_4505 : calculateDistance 45 5 0 5 = 6371000 * (π / 4) := by
  have hpi := Real.pi_pos
  have hsin : 0 ≤ Real.sin (π / 8) :=
    Real.sin_nonneg_of_nonneg_of_le_pi (by linarith) (by linarith)
  have hcos : 0 < Real.cos (π / 8) :=
    Real.cos_pos_of_mem_Ioo ⟨by linarith, by linarith⟩
  have e1 : ((0 : ℝ) - 45) * π / 180 / 2 = -(π / 8) := by ring
  have e2 : ((5 : ℝ) - 5) * π / 180 / 2 = 0 := by ring
  simp only [calculateDistance, jsAtan2, e1, e2, Real.sin_neg, Real.sin_zero]
  have e3 : -Real.sin (π / 8) * -Real.sin (π / 8) +
      Real.cos (45 * π / 180) * Real.cos (0 * π / 180) * (0 * 0) =
      Real.sin (π / 8) * Real.sin (π / 8) := by ring
  rw [e3, Real.sqrt_mul_self hsin]
  have e4 : 1 - Real.sin (π / 8) * Real.sin (π / 8) =
      Real.cos (π / 8) * Real.cos (π / 8) := by
    have h := Real.sin_sq_add_cos_sq (π / 8)
    nlinarith [h]
  rw [e4, Real.sqrt_mul_self hcos.le, if_pos hcos, ← Real.tan_eq_sin_div_cos,
    Real.arctan_tan (by linarith) (by linarith)]
  ring

/-- That distance exceeds 100 metres. -/
theorem calculateDistance_4505_gt : calculateDistance 45 5 0 5 > 100 := by
  rw [calculateDistance_4505]
  nlinarith [Real.pi_gt_three]

/-- Swapping the two endpoints leaves the haversine distance unchanged. -/
theorem calculateDistance_comm (lat1 lon1 lat2 lon2 : ℝ) :
    calculateDistance lat1 lon1 lat2 lon2 = calculateDistance lat2 lon2 lat1 lon1 := by
  have ha : (lat1 - lat2) * π / 180 / 2 = -((lat2 - lat1) * π / 180 / 2) := by ring
  have hb : (lon1 - lon2) * π / 180 / 2 = -((lon2 - lon1) * π / 180 / 2) := by ring
  simp only [calculateDistance, ha, hb, Real.sin_neg]
  ring_nf

/-- C9: the geofence distance function is symmetric —
`distance(a,b) = distance(b,a)` for all coordinate pairs — and the
distance from any point to itself is zero. -/
theorem calculateDistance_symm_and_self :
    (∀ lat1 lon1 lat2 lon2 : ℝ,
      calculateDistance lat1 lon1 lat2 lon2 = calculateDistance lat2 lon2 lat1 lon1) ∧
    (∀ la lo : ℝ, calculateDistance la lo la lo = 0) :=
  ⟨calculateDistance_comm, calculateDistance_self⟩

/-- C1 (amended): when location acquisition succeeds, the home latitude
is nonzero (the configuredness test of the code) and the haversine distance
to home exceeds `radiusMeters`, `handleClockIn` only sets the
distance-mismatch error (with the rounded computed distance) and leaves
sessions, the active slot, the status and the store untouched. -/
theorem clockIn_outside_geofence_aborts (cfg : HomeConfig) (u : Coord) (now : Int)
    (newId : String) (st : AppState) (hlat : cfg.lat ≠ 0)
    (hdist : calculateDistance u.lat u.lng cfg.lat cfg.lng > cfg.radiusMeters) :
    AppM.handleClockIn cfg now (some u) newId st =
      { st with error := some ("Location mismatch: You are (" ++
          toString (jsRound (calculateDistance u.lat u.lng cfg.lat cfg.lng)) ++
          ")m away from home.") } := by
  simp [AppM.handleClockIn, hlat, hdist]

/-- C1 witness: a concrete geofence violation (home at latitude 1 with
radius −1, user at the home point, distance 0 > −1) aborts exactly as
the theorem states. -/
theorem clockIn_outside_geofence_aborts_witness :
    ((⟨1, 0, -1⟩ : HomeConfig).lat ≠ 0) ∧
    calculateDistance (1 : ℝ) 0 1 0 > (⟨1, 0, -1⟩ : HomeConfig).radiusMeters ∧
    AppM.handleClockIn ⟨1, 0, -1⟩ 0 (some ⟨1, 0⟩) "w1" idleState =
      { idleState with error := some ("Location mismatch: You are (" ++
          toString (jsRound (calculateDistance (1 : ℝ) 0 1 0)) ++
          ")m away from home.") } := by
  have h1 : ((⟨1, 0, -1⟩ : HomeConfig).lat ≠ 0) := by norm_num
  have h2 : calculateDistance (1 : ℝ) 0 1 0 > (⟨1, 0, -1⟩ : HomeConfig).radiusMeters := by
    rw [calculateDistance_self]; norm_num
  exact ⟨h1, h2, clockIn_outside_geofence_aborts ⟨1, 0, -1⟩ ⟨1, 0⟩ 0 ("w1") idleState h1 h2⟩

/-- C1 counterexample to the claim as stated: home `(0, 5)` is
configured in the sense of the spec (different from `(0,0)`), the acquired
point is far outside the 100 m radius, yet clock-in does not abort — it
reports no error and creates an active session, because the code only
consults the latitude. -/
theorem clockIn_geofence_counterexample :
    (¬ ((⟨0, 5, 100⟩ : HomeConfig).lat = 0 ∧ (⟨0, 5, 100⟩ : HomeConfig).lng = 0)) ∧
    calculateDistance (45 : ℝ) 5 0 5 > (⟨0, 5, 100⟩ : HomeConfig).radiusMeters ∧
    (AppM.handleClockIn ⟨0, 5, 100⟩ 0 (some ⟨45, 5⟩) "c1" idleState).error = none ∧
    (AppM.handleClockIn ⟨0, 5, 100⟩ 0 (some ⟨45, 5⟩) "c1" idleState).activeSession.isSome
      = true := by
  refine ⟨by norm_num, ?_, ?_, ?_⟩
  · simpa using calculateDistance_4505_gt
  · simp [AppM.handleClockIn]
  · simp [AppM.handleClockIn]

/-- C3 (amended): with a successfully acquired point, clock-in aborts
with an error exactly when the home latitude is nonzero and the distance
exceeds the radius; in particular the geofence check is skipped if and
only if `lat = 0`, the longitude never being consulted. -/
theorem geofence_skip_iff_lat_zero (cfg : HomeConfig) (u : Coord) (now : Int)
    (newId : String) (st : AppState) :
    (AppM.handleClockIn cfg now (some u) newId st).error.isSome = true ↔
      (cfg.lat ≠ 0 ∧ calculateDistance u.lat u.lng cfg.lat cfg.lng > cfg.radiusMeters) := by
  by_cases hlat : cfg.lat = 0
  · simp [AppM.handleClockIn, hlat]
  · by_cases hdist : calculateDistance u.lat u.lng cfg.lat cfg.lng > cfg.radiusMeters
    · simp [AppM.handleClockIn, hlat, hdist]
    · simp [AppM.handleClockIn, hlat, hdist]

/-- C3 counterexample to the claim as stated: home `(0, 7)` differs from
`(0,0)`, so per the claim the distance classification should run (and
here it would flag the point, since 0 > −1); the code nevertheless skips
the check entirely because `lat = 0`, creating a session with no error. -/
theorem geofence_sentinel_counterexample :
    (¬ ((⟨0, 7, -1⟩ : HomeConfig).lat = 0 ∧ (⟨0, 7, -1⟩ : HomeConfig).lng = 0)) ∧
    calculateDistance (0 : ℝ) 7 0 7 > (⟨0, 7, -1⟩ : HomeConfig).radiusMeters ∧
    (AppM.handleClockIn ⟨0, 7, -1⟩ 0 (some ⟨0, 7⟩) "c3" idleState).error = none ∧
    (AppM.handleClockIn ⟨0, 7, -1⟩ 0 (some ⟨0, 7⟩) "c3" idleState).activeSession.isSome
      = true := by
  refine ⟨by norm_num, ?_, ?_, ?_⟩
  · rw [calculateDistance_self]; norm_num
  · simp [AppM.handleClockIn]
  · simp [AppM.handleClockIn]

/-- Helper: a clock-in that reports no error took the success branch. -/
theorem AppM_clockIn_success (cfg : HomeConfig) (u : Coord) (now : Int)
    (newId : String) (st : AppState)
    (hok : (AppM.handleClockIn cfg now (some u) newId st).error = none) :
    AppM.handleClockIn cfg now (some u) newId st =
      { st with
        error := none
        activeSession := some ⟨newId, now, none, none, none, some false, some u⟩
        status := ClockStatus.CLOCKED_IN
        store := AppM.persistActive (some ⟨newId, now, none, none, none, some false, some u⟩)
          st.store } := by
  by_cases hlat : cfg.lat ≠ 0
  · by_cases hdist : calculateDistance u.lat u.lng cfg.lat cfg.lng > cfg.radiusMeters
    · exact absurd hok (by simp [AppM.handleClockIn, hlat, hdist])
    · simp [AppM.handleClockIn, hlat, hdist]
  · simp [AppM.handleClockIn, hlat]

/-- C4: a successful clock-in followed by a clock-out prepends exactly
one completed session, with `durationInMinutes = round((end − start) /
60000)`, the rounded duration is never negative (wall clock
non-decreasing), and the active slot is cleared. -/
theorem clockIn_then_clockOut_one_completed (cfg : HomeConfig) (u : Coord)
    (newId : String) (t1 t2 : Int) (st : AppState)
    (hok : (AppM.handleClockIn cfg t1 (some u) newId st).error = none)
    (hle : t1 ≤ t2) :
    (AppM.handleClockOut cfg t2 (AppM.handleClockIn cfg t1 (some u) newId st)).sessions =
      (⟨newId, t1, some t2, some (jsRoundQ (((t2 - t1 : Int) : ℚ) / 60000)), none,
        some false, some u⟩ : Session) :: st.sessions ∧
    0 ≤ jsRoundQ (((t2 - t1 : Int) : ℚ) / 60000) ∧
    (AppM.handleClockOut cfg t2
      (AppM.handleClockIn cfg t1 (some u) newId st)).activeSession = none := by
  have hnn : 0 ≤ jsRoundQ (((t2 - t1 : Int) : ℚ) / 60000) := by
    have h0 : (0 : ℚ) ≤ ((t2 - t1 : Int) : ℚ) / 60000 := by
      apply div_nonneg _ (by norm_num)
      exact_mod_cast sub_nonneg.mpr hle
    unfold jsRoundQ
    rw [Int.le_floor]
    push_cast at h0 ⊢
    linarith
  rw [AppM_clockIn_success cfg u t1 newId st hok]
  exact ⟨by simp [AppM.handleClockOut], hnn, by simp [AppM.handleClockOut]⟩

/-- C4 witness: with an unconfigured home, a clock-in at time 0 and a
clock-out 90 s later produce the single completed 2-minute session. -/
theorem clockIn_then_clockOut_one_completed_witness :
    ((AppM.handleClockIn ⟨0, 0, 200⟩ 0 (some ⟨1, 2⟩) "w4" idleState).error = none) ∧
    ((0 : Int) ≤ 90000) ∧
    ((AppM.handleClockOut ⟨0, 0, 200⟩ 90000
        (AppM.handleClockIn ⟨0, 0, 200⟩ 0 (some ⟨1, 2⟩) "w4" idleState)).sessions =
      (⟨"w4", 0, some 90000, some (jsRoundQ (((90000 - 0 : Int) : ℚ) / 60000)), none,
        some false, some ⟨1, 2⟩⟩ : Session) :: idleState.sessions ∧
    0 ≤ jsRoundQ (((90000 - 0 : Int) : ℚ) / 60000) ∧
    (AppM.handleClockOut ⟨0, 0, 200⟩ 90000
      (AppM.handleClockIn ⟨0, 0, 200⟩ 0 (some ⟨1, 2⟩) "w4" idleState)).activeSession
      = none) := by
  have hok : (AppM.handleClockIn ⟨0, 0, 200⟩ 0 (some ⟨1, 2⟩) "w4" idleState).error
      = none := by
    simp [AppM.handleClockIn]
  exact ⟨hok, by norm_num,
    clockIn_then_clockOut_one_completed ⟨0, 0, 200⟩ ⟨1, 2⟩ "w4" 0 90000 idleState hok
      (by norm_num)⟩

/-- C7: with no active session, clock-out is a no-op in both variants —
the whole state, the persisted store included, is returned unchanged. -/
theorem clockOut_no_active_noop :
    (∀ (cfg : HomeConfig) (now : Int) (st : AppState),
      st.activeSession = none → AppM.handleClockOut cfg now st = st) ∧
    (∀ (key : String) (now : Int) (st : AppState),
      st.activeSession = none → SyncM.handleClockOut key now st = st) := by
  constructor
  · intro cfg now st h
    simp [AppM.handleClockOut, h]
  · intro key now st h
    simp [SyncM.handleClockOut, h]

/-- C7 witness: clock-out on the freshly mounted idle state is the
identity in both variants. -/
theorem clockOut_no_active_noop_witness :
    idleState.activeSession = none ∧
    AppM.handleClockOut ⟨0, 0, 200⟩ 5 idleState = idleState ∧
    SyncM.handleClockOut ("fam") 5 idleState = idleState :=
  ⟨rfl, clockOut_no_active_noop.1 ⟨0, 0, 200⟩ 5 idleState rfl,
    clockOut_no_active_noop.2 ("fam") 5 idleState rfl⟩

/-- C2 (code bug): at `now` = 2024-03-10T12:00Z with `periodOffset = 0`
the window start computed by the code is indeed `now − 14` days (the claimed lower
bound), so the claimed window is `[now − 14 days, now]`; yet a session
started 2024-03-20T12:00Z — strictly after `now` — passes the filter,
because `endOfPeriod` is built from a `Date` still anchored to the month
of `now` (`setDate(25 + 14)` lands on 2024-04-08). -/
theorem filteredSessions_window_bug :
    jsSetDate bugNow (jsGetDate bugNow - 14 * (0 + 1)) = bugNow - 14 * msPerDay ∧
    bugNow < bugSession.startTime ∧
    (filteredSessions [bugSession] 0 bugNow).map Session.id = ["s1"] := by
  refine ⟨by decide, by decide, by decide⟩

/-- Helper: the JS `reduce` over `durationInMinutes || 0` is the sum of
the mapped durations. -/
theorem foldl_durations (l : List Session) (a : Int) :
    l.foldl (fun acc s => acc + s.durationInMinutes.getD 0) a =
      a + (l.map fun s => s.durationInMinutes.getD 0).sum := by
  induction l generalizing a with
  | nil => simp
  | cons s t ih => simp [ih, add_assoc]

/-- C6: `totalHours` is the sum of the filtered durations (missing = 0)
divided by 60 and `totalPay` is `totalHours × hourlyRate`, each rounded
to two decimals; on durations `[60, 90, 30]` at rate 25 they come out as
3.00 and 75.00. -/
theorem totalHours_totalPay_spec :
    (∀ (l : List Session) (rate : ℚ),
      totalHours l = jsToFixed2
        ((((l.map fun s => s.durationInMinutes.getD 0).sum : Int) : ℚ) / 60) ∧
      totalPay l rate = jsToFixed2 (totalHours l * rate)) ∧
    totalHours exampleSessions = 3 ∧ totalPay exampleSessions 25 = 75 := by
  refine ⟨fun l rate => ⟨?_, rfl⟩, ?_, ?_⟩
  · unfold totalHours
    rw [foldl_durations]
    simp
  · norm_num [totalHours, jsToFixed2, exampleSessions, doneSession]
  · norm_num [totalPay, totalHours, jsToFixed2, exampleSessions, doneSession]

/-- Helper: appending distinct suffixes to one prefix gives distinct keys. -/
theorem append_ne_of_ne (p : String) {a b : String} (h : a ≠ b) :
    (p ++ a : String) ≠ p ++ b := by
  intro he
  apply h
  have h2 : (p ++ a).data = (p ++ b).data := congrArg String.data he
  rw [String.data_append, String.data_append] at h2
  have h3 : a.data = b.data := List.append_cancel_left h2
  cases a
  cases b
  exact congrArg String.mk h3

/-- Helper: a sessions key never coincides with an active-slot key,
whatever the two sync keys are. -/
theorem sessions_key_ne_active_key (a b : String) :
    ("nanny_sessions_" ++ a : String) ≠ "nanny_active_" ++ b := by
  intro h
  have h2 : ("nanny_sessions_" ++ a).data = ("nanny_active_" ++ b).data :=
    congrArg String.data h
  rw [String.data_append, String.data_append] at h2
  have e1 : ("nanny_sessions_" : String).data =
      ['n', 'a', 'n', 'n', 'y', '_', 's', 'e', 's', 's', 'i', 'o', 'n', 's', '_'] := rfl
  have e2 : ("nanny_active_" : String).data =
      ['n', 'a', 'n', 'n', 'y', '_', 'a', 'c', 't', 'i', 'v', 'e', '_'] := rfl
  rw [e1, e2] at h2
  simp at h2

/-- C8: persisting a session list and active session under sync key `A`
into empty storage and then loading under a different key `B` finds
nothing — neither a session list nor an active session. -/
theorem store_partition_no_leak (A B : String) (data : List Session)
    (active : Option Session) (hne : A ≠ B) :
    SyncM.loadSessions B (SyncM.saveToCloud A data active emptyStore) = none ∧
    SyncM.loadActive B (SyncM.saveToCloud A data active emptyStore) = none := by
  have hsess : ("nanny_sessions_" ++ B : String) ≠ "nanny_sessions_" ++ A :=
    append_ne_of_ne _ (fun h => hne h.symm)
  have hact : ("nanny_active_" ++ B : String) ≠ "nanny_active_" ++ A :=
    append_ne_of_ne _ (fun h => hne h.symm)
  have hcross : ("nanny_sessions_" ++ B : String) ≠ "nanny_active_" ++ A :=
    sessions_key_ne_active_key B A
  have hcross2 : ("nanny_active_" ++ B : String) ≠ "nanny_sessions_" ++ A := by
    intro h
    exact sessions_key_ne_active_key A B h.symm
  cases active with
  | none =>
    constructor
    · simp [SyncM.loadSessions, SyncM.saveToCloud, storeSet, storeRemove, emptyStore,
        hsess, hcross]
    · simp [SyncM.loadActive, SyncM.saveToCloud, storeSet, storeRemove, emptyStore,
        hact, hcross2]
  | some s =>
    constructor
    · simp [SyncM.loadSessions, SyncM.saveToCloud, storeSet, storeRemove, emptyStore,
        hsess, hcross]
    · simp [SyncM.loadActive, SyncM.saveToCloud, storeSet, storeRemove, emptyStore,
        hact, hcross2]

/-- C8 witness: saving under key `alpha` and loading under key `beta`
yields nothing. -/
theorem store_partition_no_leak_witness :
    ("alpha" : String) ≠ "beta" ∧
    (SyncM.loadSessions ("beta") (SyncM.saveToCloud ("alpha") [] none emptyStore) = none ∧
     SyncM.loadActive ("beta") (SyncM.saveToCloud ("alpha") [] none emptyStore) = none) :=
  ⟨by decide, store_partition_no_leak ("alpha") "beta" [] none (by decide)⟩

/-- Helper: one event preserves the status/active-slot correspondence. -/
theorem AppM_step_status (cfg : HomeConfig) (st : AppState) (e : Ev)
    (h : st.status = if st.activeSession.isSome then ClockStatus.CLOCKED_IN
      else ClockStatus.CLOCKED_OUT) :
    (AppM.step cfg st e).status = if (AppM.step cfg st e).activeSession.isSome
      then ClockStatus.CLOCKED_IN else ClockStatus.CLOCKED_OUT := by
  cases e with
  | evClockIn now loc id =>
    cases loc with
    | none => simpa [AppM.step, AppM.handleClockIn] using h
    | some u =>
      by_cases hlat : cfg.lat ≠ 0
      · by_cases hdist : calculateDistance u.lat u.lng cfg.lat cfg.lng > cfg.radiusMeters
        · simpa [AppM.step, AppM.handleClockIn, hlat, hdist] using h
        · simp [AppM.step, AppM.handleClockIn, hlat, hdist]
      · simp [AppM.step, AppM.handleClockIn, hlat]
  | evClockOut now =>
    cases hact : st.activeSession with
    | none => simpa [AppM.step, AppM.handleClockOut, hact] using h
    | some a => simp [AppM.step, AppM.handleClockOut, hact]

/-- Helper: the correspondence carries through a whole event history. -/
theorem AppM_run_status (cfg : HomeConfig) (evs : List Ev) :
    ∀ st : AppState,
      (st.status = if st.activeSession.isSome then ClockStatus.CLOCKED_IN
        else ClockStatus.CLOCKED_OUT) →
      (AppM.run cfg st evs).status =
        if (AppM.run cfg st evs).activeSession.isSome then ClockStatus.CLOCKED_IN
        else ClockStatus.CLOCKED_OUT := by
  induction evs with
  | nil => intro st h; simpa [AppM.run] using h
  | cons e t ih =>
    intro st h
    have hc : AppM.run cfg st (e :: t) = AppM.run cfg (AppM.step cfg st e) t := rfl
    rw [hc]
    exact ih _ (AppM_step_status cfg st e h)

/-- C10: after the initial load (from any stored contents) and any
sequence of clock-in / clock-out events, the status is `CLOCKED_IN`
exactly when the active slot is filled and `CLOCKED_OUT` exactly when it
is empty; in particular `IDLE` is never assigned. -/
theorem status_matches_active_slot (cfg : HomeConfig) (st0 : Store) (evs : List Ev) :
    (AppM.run cfg (AppM.initFromStore cfg st0) evs).status =
      (if (AppM.run cfg (AppM.initFromStore cfg st0) evs).activeSession.isSome
        then ClockStatus.CLOCKED_IN else ClockStatus.CLOCKED_OUT) := by
  exact AppM_run_status cfg evs (AppM.initFromStore cfg st0) rfl

/-- Helper: one event preserves the store correspondence of the main
variant. -/
theorem AppM_step_storeInv (cfg : HomeConfig) (st : AppState) (e : Ev)
    (h : AppStoreInv st) : AppStoreInv (AppM.step cfg st e) := by
  obtain ⟨h1, h2, h3⟩ := h
  have hne1 : ("nanny_sessions" : String) ≠ "nanny_active_session" := by decide
  have hne2 : ("nanny_active_session" : String) ≠ "home_config" := by decide
  have hne3 : ("nanny_sessions" : String) ≠ "home_config" := by decide
  cases e with
  | evClockIn now loc id =>
    cases loc with
    | none =>
      refine ⟨?_, ?_, ?_⟩
      · simpa [AppM.step, AppM.handleClockIn] using h1
      · simpa [AppM.step, AppM.handleClockIn] using h2
      · simpa [AppM.step, AppM.handleClockIn] using h3
    | some u =>
      by_cases hlat : cfg.lat ≠ 0
      · by_cases hdist : calculateDistance u.lat u.lng cfg.lat cfg.lng > cfg.radiusMeters
        · constructor
          · simpa [AppM.step, AppM.handleClockIn, hlat, hdist] using h1
          constructor
          · simpa [AppM.step, AppM.handleClockIn, hlat, hdist] using h2
          · simpa [AppM.step, AppM.handleClockIn, hlat, hdist] using h3
        · constructor
          · simpa [AppM.step, AppM.handleClockIn, hlat, hdist] using h1
          constructor
          · simpa [AppM.step, AppM.handleClockIn, hlat, hdist, AppM.loadSessions,
              AppM.persistActive, storeSet, hne1] using h2
          · simp [AppM.step, AppM.handleClockIn, hlat, hdist, AppM.loadActive,
              AppM.persistActive, storeSet]
      · constructor
        · simpa [AppM.step, AppM.handleClockIn, hlat] using h1
        constructor
        · simpa [AppM.step, AppM.handleClockIn, hlat, AppM.loadSessions,
            AppM.persistActive, storeSet, hne1] using h2
        · simp [AppM.step, AppM.handleClockIn, hlat, AppM.loadActive,
            AppM.persistActive, storeSet]
  | evClockOut now =>
    cases hact : st.activeSession with
    | none =>
      refine ⟨?_, ?_, ?_⟩
      · simpa [AppM.step, AppM.handleClockOut, hact] using h1
      · simpa [AppM.step, AppM.handleClockOut, hact] using h2
      · simpa [AppM.step, AppM.handleClockOut, hact] using h3
    | some a =>
      refine ⟨?_, ?_, ?_⟩
      · simpa [AppM.step, AppM.handleClockOut, hact, completedB] using h1
      · simp [AppM.step, AppM.handleClockOut, hact, AppM.loadSessions,
          AppM.persistActive, AppM.persistSessions, storeSet, storeRemove, hne1, hne3]
      · simp [AppM.step, AppM.handleClockOut, hact, AppM.loadActive,
          AppM.persistActive, AppM.persistSessions, storeSet, storeRemove, hne1, hne2]

/-- Helper: one event preserves the store correspondence of the sync
variant. -/
theorem SyncM_step_storeInv (key : String) (st : AppState) (e : Ev)
    (h : SyncStoreInv key st) : SyncStoreInv key (SyncM.step key st e) := by
  obtain ⟨h1, h2, h3⟩ := h
  have hcross := sessions_key_ne_active_key key key
  cases e with
  | evClockIn now loc id =>
    cases loc with
    | none =>
      refine ⟨?_, ?_, ?_⟩
      · simpa [SyncM.step, SyncM.handleClockIn] using h1
      · simpa [SyncM.step, SyncM.handleClockIn, SyncM.storedView] using h2
      · simpa [SyncM.step, SyncM.handleClockIn] using h3
    | some u =>
      refine ⟨?_, ?_, ?_⟩
      · simpa [SyncM.step, SyncM.handleClockIn] using h1
      · simp [SyncM.step, SyncM.handleClockIn, SyncM.saveToCloud, SyncM.loadSessions,
          SyncM.storedView, storeSet, hcross]
      · simp [SyncM.step, SyncM.handleClockIn, SyncM.saveToCloud, SyncM.loadActive,
          storeSet]
  | evClockOut now =>
    cases hact : st.activeSession with
    | none =>
      refine ⟨?_, ?_, ?_⟩
      · simpa [SyncM.step, SyncM.handleClockOut, hact] using h1
      · simpa [SyncM.step, SyncM.handleClockOut, hact] using h2
      · simpa [SyncM.step, SyncM.handleClockOut, hact] using h3
    | some a =>
      refine ⟨?_, ?_, ?_⟩
      · simpa [SyncM.step, SyncM.handleClockOut, hact, completedB] using h1
      · simp [SyncM.step, SyncM.handleClockOut, hact, SyncM.saveToCloud,
          SyncM.loadSessions, SyncM.storedView, storeSet, storeRemove, hcross]
      · simp [SyncM.step, SyncM.handleClockOut, hact, SyncM.saveToCloud,
          SyncM.loadActive, storeSet, storeRemove]

/-- Helper: the correspondence of the main variant carries through a history. -/
theorem AppM_run_storeInv (cfg : HomeConfig) (evs : List Ev) :
    ∀ st : AppState, AppStoreInv st → AppStoreInv (AppM.run cfg st evs) := by
  induction evs with
  | nil => intro st h; simpa [AppM.run] using h
  | cons e t ih =>
    intro st h
    have hc : AppM.run cfg st (e :: t) = AppM.run cfg (AppM.step cfg st e) t := rfl
    rw [hc]
    exact ih _ (AppM_step_storeInv cfg st e h)

/-- Helper: the correspondence of the sync variant carries through a history. -/
theorem SyncM_run_storeInv (key : String) (evs : List Ev) :
    ∀ st : AppState, SyncStoreInv key st → SyncStoreInv key (SyncM.run key st evs) := by
  induction evs with
  | nil => intro st h; simpa [SyncM.run] using h
  | cons e t ih =>
    intro st h
    have hc : SyncM.run key st (e :: t) = SyncM.run key (SyncM.step key st e) t := rfl
    rw [hc]
    exact ih _ (SyncM_step_storeInv key st e h)

/-- C5 (amended): from a fresh (empty) store, in every reachable state
of either variant the in-memory session list contains only completed
sessions, gaining entries only at clock-out; in the main variant
(`App.tsx`) the persisted list and active slot mirror the in-memory ones
exactly, while in the sync variant the persisted list is the in-memory
list with the active (still incomplete) session prepended whenever one
is running, and the persisted active slot mirrors the in-memory one. -/
theorem session_store_invariant (cfg : HomeConfig) (key : String)
    (evsA evsS : List Ev) :
    AppStoreInv (AppM.run cfg (AppM.initFromStore cfg emptyStore) evsA) ∧
    SyncStoreInv key (SyncM.run key (SyncM.initFromStore key emptyStore) evsS) := by
  have hne1 : ("nanny_sessions" : String) ≠ "nanny_active_session" := by decide
  have hne3 : ("nanny_sessions" : String) ≠ "home_config" := by decide
  constructor
  · apply AppM_run_storeInv
    refine ⟨rfl, ?_, ?_⟩
    · simp [AppM.initFromStore, AppM.loadSessions, AppM.loadActive, AppM.persistActive,
        AppM.persistSessions, storeSet, storeRemove, emptyStore, hne1, hne3]
    · simp [AppM.initFromStore, AppM.loadActive, AppM.persistActive,
        AppM.persistSessions, storeSet, storeRemove, emptyStore]
  · apply SyncM_run_storeInv
    exact ⟨rfl, rfl, rfl⟩

/-- C5 counterexample to the claim as stated: in the sync variant a
single clock-in from a fresh state persists the brand-new active session
into the stored session list — the stored list then contains a session
with neither `endTime` nor `durationInMinutes`, while that session is
still the active one. -/
theorem sync_store_holds_active_session :
    ((SyncM.loadSessions ("fam")
        (SyncM.handleClockIn ("fam") 0 (some ⟨1, 2⟩) "s1" idleState).store).getD []).map
      (fun s => s.endTime) = [none] ∧
    ((SyncM.loadSessions ("fam")
        (SyncM.handleClockIn ("fam") 0 (some ⟨1, 2⟩) "s1" idleState).store).getD []).map
      (fun s => s.durationInMinutes) = [none] ∧
    (SyncM.handleClockIn ("fam") 0 (some ⟨1, 2⟩) "s1" idleState).activeSession.isSome
      = true := by
  have hcross := sessions_key_ne_active_key ("fam") "fam"
  refine ⟨?_, ?_, rfl⟩ <;>
    simp [SyncM.handleClockIn, SyncM.saveToCloud, SyncM.loadSessions, storeSet,
      idleState, hcross]
